import Mathlib

/-
Verification development for the branch-interpretation resolver of
uproot (src/uproot/interp/auto.py).  The Python function interpret and its
helpers are shallowly embedded below.  Conventions of the embedding:

  * Python bytes/str values are modelled as String (titles, type names,
    class names, registry keys).
  * numpy dtypes are modelled by Dtype (kind, item size, byte order where
    big = true means big-endian and big = false means native order; one
    byte wide dtypes ignore byte order, as numpy does).
  * Numeric values appearing in compressed-float (Double32) range
    expressions are modelled by the exact rational type Q; this abstracts
    IEEE-754 doubles by exact rational arithmetic with failing division by
    zero, which is faithful on every value considered in the claims.
  * The interpretation objects returned by interpret (asdtype, asjagged,
    asobj, asstring, asstlbitset, asdouble32, aswrapped, STLVector,
    STLString) are constructors of external modules that auto.py only
    applies; they are modelled as the free constructors of Interp.
  * A raised Python exception that escapes interpret is modelled by
    Except.error; a normal return of None is Except.ok none.
-/

namespace UprootInterp

/-- Exact rationals with a fuelled, kernel-reducible gcd.  All values are
built through mkQ and are therefore in lowest terms with positive
denominator, so structural equality coincides with rational equality. -/
structure Q where
  num : Int
  den : Nat
deriving DecidableEq, Repr

def gcdF : Nat → Nat → Nat → Nat
  | 0, _, b => b
  | _ + 1, 0, b => b
  | f + 1, a, b => gcdF f (b % a) a

def ngcd (a b : Nat) : Nat := gcdF (a + 1) a b

def mkQ (n d : Int) : Q :=
  let na := n.natAbs
  let da := d.natAbs
  let g := ngcd na da
  if g = 0 then ⟨0, 1⟩
  else if (n < 0) = (d < 0) then ⟨Int.ofNat (na / g), da / g⟩
  else ⟨-(Int.ofNat (na / g)), da / g⟩

def qadd (a b : Q) : Q := mkQ (a.num * Int.ofNat b.den + b.num * Int.ofNat a.den) (Int.ofNat (a.den * b.den))

def qsub (a b : Q) : Q := mkQ (a.num * Int.ofNat b.den - b.num * Int.ofNat a.den) (Int.ofNat (a.den * b.den))

def qmul (a b : Q) : Q := mkQ (a.num * b.num) (Int.ofNat (a.den * b.den))

def qdiv (a b : Q) : Q := mkQ (a.num * Int.ofNat b.den) (b.num * Int.ofNat a.den)

def qneg (a : Q) : Q := ⟨-a.num, a.den⟩

/-- The double literal written in auto.py for TMath Pi, as an exact
rational (line 138 of auto.py writes 3.141592653589793). -/
def piQ : Q := mkQ 3141592653589793 1000000000000000

/-- Modelled from the spec: the process-wide numeric type-code table
(section 6 names a fixed code table; the uproot.const module is not under
src).  The values follow the well-known ROOT streamer type codes; only
their pairwise distinctness and membership in the table of ftype2dtype
matter to the development. -/
def kBool : Int := 18
def kChar : Int := 1
def kShort : Int := 2
def kInt : Int := 3
def kLong : Int := 4
def kFloat : Int := 5
def kCounter : Int := 6
def kCharStar : Int := 7
def kDouble : Int := 8
def kDouble32 : Int := 9
def kUChar : Int := 11
def kUShort : Int := 12
def kUInt : Int := 13
def kULong : Int := 14
def kBits : Int := 15
def kLong64 : Int := 16
def kULong64 : Int := 17
def kOffsetP : Int := 40
def kSTLvector : Int := 1

inductive DKind where
  | dbool
  | dint
  | duint
  | dfloat
deriving DecidableEq, Repr

/-- A numpy scalar dtype: kind, element byte size, byte order.  big = true
is explicit big-endian; big = false is native order.  Byte order is
irrelevant for one-byte dtypes, mirrored by newbyteorder below. -/
structure Dtype where
  kind : DKind
  itemsize : Nat
  big : Bool
deriving DecidableEq, Repr

def Dtype.newbyteorder (d : Dtype) (toBig : Bool) : Dtype :=
  if d.itemsize ≤ 1 then d else ⟨d.kind, d.itemsize, toBig⟩

def dtBool : Dtype := ⟨DKind.dbool, 1, false⟩
def dtI1 : Dtype := ⟨DKind.dint, 1, false⟩
def dtU1 : Dtype := ⟨DKind.duint, 1, false⟩
def dtI2n : Dtype := ⟨DKind.dint, 2, false⟩
def dtU2n : Dtype := ⟨DKind.duint, 2, false⟩
def dtI4n : Dtype := ⟨DKind.dint, 4, false⟩
def dtU4n : Dtype := ⟨DKind.duint, 4, false⟩
def dtI8n : Dtype := ⟨DKind.dint, 8, false⟩
def dtU8n : Dtype := ⟨DKind.duint, 8, false⟩
def dtF4n : Dtype := ⟨DKind.dfloat, 4, false⟩
def dtF8n : Dtype := ⟨DKind.dfloat, 8, false⟩
def dtI2b : Dtype := ⟨DKind.dint, 2, true⟩
def dtU2b : Dtype := ⟨DKind.duint, 2, true⟩
def dtI4b : Dtype := ⟨DKind.dint, 4, true⟩
def dtU4b : Dtype := ⟨DKind.duint, 4, true⟩
def dtI8b : Dtype := ⟨DKind.dint, 8, true⟩
def dtU8b : Dtype := ⟨DKind.duint, 8, true⟩
def dtF4b : Dtype := ⟨DKind.dfloat, 4, true⟩
def dtF8b : Dtype := ⟨DKind.dfloat, 8, true⟩

/-- A possibly structured numpy dtype: a scalar or a record of named
scalar fields (the multi-leaf composite and the recarray layout of a
schema-defined vector element class). -/
inductive NDtype where
  | scalar (d : Dtype)
  | record (fields : List (String × Dtype))
deriving DecidableEq, Repr

/-- Embedding of the function ftype2dtype of auto.py (lines 51 to 79);
none models the raised NotNumerical. -/
def ftype2dtype (t : Int) : Option Dtype :=
  if t = kBool then some dtBool
  else if t = kChar then some dtI1
  else if t = kUChar then some dtU1
  else if t = kShort then some dtI2b
  else if t = kUShort then some dtU2b
  else if t = kInt then some dtI4b
  else if t = kBits ∨ t = kUInt ∨ t = kCounter then some dtU4b
  else if t = kLong then some dtI8b
  else if t = kULong then some dtU8b
  else if t = kLong64 then some dtI8b
  else if t = kULong64 then some dtU8b
  else if t = kFloat then some dtF4b
  else if t = kDouble then some dtF8b
  else none

inductive LeafCls where
  | tleafO
  | tleafB
  | tleafS
  | tleafI
  | tleafL
  | tleafF
  | tleafD
  | tleafC
  | element
  | otherLeaf
deriving DecidableEq, Repr

/-- A leaf descriptor.  lid is the object identity of the leaf, and
fLeafCount holds the identity of the counter leaf when present (Python
compares these with the is operator). -/
structure Leaf where
  cls : LeafCls
  fIsUnsigned : Bool
  fType : Int
  fTitle : String
  fName : String
  fLeafCount : Option Nat
  lid : Nat
deriving DecidableEq, Repr

/-- Embedding of the function leaf2dtype of auto.py (lines 81 to 112);
none models the raised NotNumerical (TLeafC and unknown classes). -/
def leaf2dtype (lf : Leaf) : Option Dtype :=
  match lf.cls with
  | LeafCls.tleafO => some dtBool
  | LeafCls.tleafB => some (if lf.fIsUnsigned then dtU1 else dtI1)
  | LeafCls.tleafS => some (if lf.fIsUnsigned then dtU2n else dtI2n)
  | LeafCls.tleafI => some (if lf.fIsUnsigned then dtU4n else dtI4n)
  | LeafCls.tleafL => some (if lf.fIsUnsigned then dtU8n else dtI8n)
  | LeafCls.tleafF => some dtF4n
  | LeafCls.tleafD => some dtF8n
  | LeafCls.element => ftype2dtype lf.fType
  | _ => none

/-- Method sets optionally declared by a decodable class; arraymethods is
the optional array-level method set. -/
structure Methods where
  mname : String
  arraymethods : Option String
deriving DecidableEq, Repr

/-- A decodable class from the class registry.  recarray models the
result of the recarray-dtype accessor: none models the AttributeError or
ValueError it may raise, some gives the fixed record byte layout. -/
structure PyClass where
  pname : String
  recarray : Option (List (String × Dtype))
  methods : Option Methods
deriving DecidableEq, Repr

inductive StreamerCls where
  | objectPointer
  | objectEmb
  | info
  | basicType
  | basicPointer
  | tstring
  | stlString
  | stl
  | otherStreamer
deriving DecidableEq, Repr

/-- A streamer descriptor.  Fields that some streamer classes lack
(fTypeName on TStreamerInfo, fType and fSTLtype and fCtype elsewhere) are
Options; a none field makes every getattr comparison against it fail,
exactly as the Python default-None getattr does. -/
structure Streamer where
  cls : StreamerCls
  fName : String
  fTitle : String
  fTypeName : Option String
  fType : Option Int
  fSize : Nat
  fSTLtype : Option Int
  fCtype : Option Int
deriving DecidableEq, Repr

/-- The sibling vector-element streamer of a branch; pyclass none models
an absent pyclass attribute (AttributeError on access). -/
structure VecStreamer where
  pyclass : Option PyClass
  fName : String
deriving DecidableEq, Repr

/-- A child branch; interpret only reads the fLeaves of children. -/
structure SubBranch where
  fLeaves : List Leaf
deriving DecidableEq, Repr

/-- A branch (column) with its schema metadata, the inputs of interpret. -/
structure Branch where
  fLeaves : List Leaf
  fBranches : List SubBranch
  streamer : Option Streamer
  vecstreamer : Option VecStreamer
  fClassName : String
  classes : List (String × PyClass)
deriving DecidableEq, Repr

/-- The STL element descriptions interpret builds (STLVector and
STLString applications from uproot.interp.objects). -/
inductive STLElt where
  | clsElt (c : PyClass)
  | strElt
  | dtElt (d : Dtype)
  | vecElt (e : STLElt)
deriving DecidableEq, Repr

/-- First argument of an asobj application: a registry class or an STL
vector description. -/
inductive ObjRepr where
  | ofClass (c : PyClass)
  | stlvec (e : STLElt)
deriving DecidableEq, Repr

/-- Second argument of an aswrapped application: the method set itself or
its array-level member. -/
inductive WrapArg where
  | meths (m : Methods)
  | arrmeths (s : String)
deriving DecidableEq, Repr

/-- Values evaluated from a compressed-float range expression: Python
floats (as exact rationals) and Python lists.  Lists are represented in
binary-cons form (vnil and vcons) so that equality stays derivable; a
Python list a of length two is vcons a0 (vcons a1 vnil). -/
inductive PyVal where
  | num (q : Q)
  | vnil
  | vcons (hd tl : PyVal)
deriving DecidableEq, Repr

/-- Concatenation of Python list values (the plus operator on lists). -/
def vappend : PyVal → PyVal → PyVal
  | PyVal.vnil, b => b
  | PyVal.vcons h t, b => PyVal.vcons h (vappend t b)
  | PyVal.num q, _ => PyVal.num q

/-- The decode plans interpret can return, one free constructor per
interpretation constructor applied in auto.py.  asdtype1 is the
one-argument form of asdtype (destination defaulted by the callee);
asdtype2 is the two-argument form, each side a dtype with fixed dims. -/
inductive Interp where
  | asdtype2 (fromd tod : NDtype × List Nat)
  | asdtype1 (fromd : NDtype)
  | asdouble32 (low high numbits : PyVal) (fromdims todims : List Nat)
  | asjagged (content : Interp) (skipbytes : Nat)
  | asstring (skipbytes : Nat)
  | asstlbitset (numbits : Nat)
  | asobj (o : ObjRepr) (skipbytes : Nat)
  | aswrapped (inner : Interp) (arg : WrapArg)
deriving DecidableEq, Repr

/-- Exceptions that can escape interpret (the NameError of line 283 and
the unbound-local error reachable at line 274). -/
inductive PyErr where
  | nameError (s : String)
deriving DecidableEq, Repr

instance exceptDecEq {e a : Type} [DecidableEq e] [DecidableEq a] : DecidableEq (Except e a) :=
  fun x y =>
    match x, y with
    | Except.ok u, Except.ok v =>
        match decEq u v with
        | isTrue h => isTrue (congrArg Except.ok h)
        | isFalse h => isFalse (fun hh => h (by cases hh; rfl))
    | Except.error u, Except.error v =>
        match decEq u v with
        | isTrue h => isTrue (congrArg Except.error h)
        | isFalse h => isFalse (fun hh => h (by cases hh; rfl))
    | Except.ok _, Except.error _ => isFalse (fun hh => Except.noConfusion hh)
    | Except.error _, Except.ok _ => isFalse (fun hh => Except.noConfusion hh)

/- Dimension parsing: the regular expressions titlehasdims and
itemdimpattern of auto.py (lines 399 to 400). -/

def isDigitC (c : Char) : Bool := 48 ≤ c.toNat ∧ c.toNat ≤ 57

def isAlphaC (c : Char) : Bool := ('a' ≤ c ∧ c ≤ 'z') ∨ ('A' ≤ c ∧ c ≤ 'Z') ∨ c = '_'

def isIdentC (c : Char) : Bool := isAlphaC c ∨ isDigitC c

def digitsVal (ds : List Char) : Nat := ds.foldl (fun a c => a * 10 + (c.toNat - 48)) 0

def notBracket (c : Char) : Bool := !(c = '[' ∨ c = ']')

/-- Whether the anchored pattern of titlehasdims matches: a nonempty run
of non-bracket characters followed by at least one bracketed nonempty run
of non-bracket characters (the trailing context is unconstrained because
re.match only matches a prefix). -/
def titleHasDims (cs : List Char) : Bool :=
  let p := cs.takeWhile notBracket
  if p.isEmpty then false
  else match cs.drop p.length with
    | '[' :: r =>
        let q := r.takeWhile notBracket
        if q.isEmpty then false
        else match r.drop q.length with
          | ']' :: _ => true
          | _ => false
    | _ => false

/-- One attempted match of itemdimpattern just after an opening bracket:
a nonempty digit run with nonzero first digit, closed by a bracket. -/
def parseBr (cs : List Char) : Option (Nat × List Char) :=
  let ds := cs.takeWhile isDigitC
  match ds with
  | [] => none
  | d0 :: _ =>
      if d0.toNat = 48 then none
      else match cs.drop ds.length with
        | ']' :: rest => some (digitsVal ds, rest)
        | _ => none

/-- Left-to-right nonoverlapping scan of itemdimpattern (re.findall). -/
def scanDimsF : Nat → List Char → List Nat
  | 0, _ => []
  | _ + 1, [] => []
  | f + 1, c :: rest =>
      if c = '[' then
        match parseBr rest with
        | some (n, rest2) => n :: scanDimsF f rest2
        | none => scanDimsF f rest
      else scanDimsF f rest

def scanDims (cs : List Char) : List Nat := scanDimsF cs.length cs

/-- The dims a single-leaf branch gets from its leaf title (auto.py lines
115 to 119). -/
def dimsOfTitle (t : String) : List Nat :=
  if titleHasDims t.data then scanDims t.data else []

/- Compressed-float range expressions: a model of the Python expression
fragment that ast.parse can yield on a bracketed slice, the transform
function of auto.py lines 135 to 154, and evaluation of the transformed
tree (the compiled eval of line 162). -/

inductive PBinOp where
  | addOp
  | subOp
  | mulOp
  | divOp
  | modOp
deriving DecidableEq, Repr

inductive PUnOp where
  | usub
  | uadd
deriving DecidableEq, Repr

inductive PExpr where
  | num (q : Q)
  | pname (s : String)
  | binop (op : PBinOp) (l r : PExpr)
  | unop (op : PUnOp) (e : PExpr)
  | plist (elts : List PExpr)
  | call (f : PExpr) (args : List PExpr)

def skipWs : List Char → List Char
  | ' ' :: r => skipWs r
  | '\t' :: r => skipWs r
  | cs => cs

/-- Numeric literal: digits with an optional fractional part, or a
leading dot with digits, as an exact rational. -/
def parseNumber (cs : List Char) : Option (Q × List Char) :=
  let ds := cs.takeWhile isDigitC
  let r1 := cs.drop ds.length
  if ds.isEmpty then
    match cs with
    | '.' :: r2 =>
        let fs := r2.takeWhile isDigitC
        if fs.isEmpty then none
        else some (mkQ (Int.ofNat (digitsVal fs)) (Int.ofNat (10 ^ fs.length)), r2.drop fs.length)
    | _ => none
  else
    match r1 with
    | '.' :: r2 =>
        let fs := r2.takeWhile isDigitC
        some (mkQ (Int.ofNat (digitsVal ds * 10 ^ fs.length + digitsVal fs)) (Int.ofNat (10 ^ fs.length)), r2.drop fs.length)
    | _ => some (mkQ (Int.ofNat (digitsVal ds)) 1, r1)

mutual

def pExpr : Nat → List Char → Option (PExpr × List Char)
  | 0, _ => none
  | f + 1, cs =>
      match pTerm f cs with
      | some (t, r) => pExprT f t r
      | none => none

def pExprT : Nat → PExpr → List Char → Option (PExpr × List Char)
  | 0, _, _ => none
  | f + 1, acc, cs =>
      match skipWs cs with
      | '+' :: r =>
          match pTerm f r with
          | some (t, r2) => pExprT f (PExpr.binop PBinOp.addOp acc t) r2
          | none => none
      | '-' :: r =>
          match pTerm f r with
          | some (t, r2) => pExprT f (PExpr.binop PBinOp.subOp acc t) r2
          | none => none
      | _ => some (acc, cs)

def pTerm : Nat → List Char → Option (PExpr × List Char)
  | 0, _ => none
  | f + 1, cs =>
      match pFactor f cs with
      | some (t, r) => pTermT f t r
      | none => none

def pTermT : Nat → PExpr → List Char → Option (PExpr × List Char)
  | 0, _, _ => none
  | f + 1, acc, cs =>
      match skipWs cs with
      | '*' :: r =>
          match pFactor f r with
          | some (t, r2) => pTermT f (PExpr.binop PBinOp.mulOp acc t) r2
          | none => none
      | '/' :: r =>
          match pFactor f r with
          | some (t, r2) => pTermT f (PExpr.binop PBinOp.divOp acc t) r2
          | none => none
      | '%' :: r =>
          match pFactor f r with
          | some (t, r2) => pTermT f (PExpr.binop PBinOp.modOp acc t) r2
          | none => none
      | _ => some (acc, cs)

def pFactor : Nat → List Char → Option (PExpr × List Char)
  | 0, _ => none
  | f + 1, cs =>
      match skipWs cs with
      | '-' :: r => (pFactor f r).map (fun p => (PExpr.unop PUnOp.usub p.1, p.2))
      | '+' :: r => (pFactor f r).map (fun p => (PExpr.unop PUnOp.uadd p.1, p.2))
      | _ => pPost f cs

def pPost : Nat → List Char → Option (PExpr × List Char)
  | 0, _ => none
  | f + 1, cs =>
      match pAtom f cs with
      | some (a, r) => pCallT f a r
      | none => none

def pCallT : Nat → PExpr → List Char → Option (PExpr × List Char)
  | 0, _, _ => none
  | f + 1, acc, cs =>
      match skipWs cs with
      | '(' :: r =>
          match skipWs r with
          | ')' :: r2 => pCallT f (PExpr.call acc []) r2
          | r1 =>
              match pElems f ')' r1 with
              | some (args, r2) =>
                  match skipWs r2 with
                  | ')' :: r3 => pCallT f (PExpr.call acc args) r3
                  | _ => none
              | none => none
      | _ => some (acc, cs)

def pAtom : Nat → List Char → Option (PExpr × List Char)
  | 0, _ => none
  | f + 1, cs =>
      match skipWs cs with
      | '(' :: r =>
          match pExpr f r with
          | some (e, r2) =>
              match skipWs r2 with
              | ')' :: r3 => some (e, r3)
              | _ => none
          | none => none
      | '[' :: r =>
          match skipWs r with
          | ']' :: r2 => some (PExpr.plist [], r2)
          | r1 =>
              match pElems f ']' r1 with
              | some (es, r2) =>
                  match skipWs r2 with
                  | ']' :: r3 => some (PExpr.plist es, r3)
                  | _ => none
              | none => none
      | c :: r =>
          if isDigitC c ∨ c = '.' then
            (parseNumber (c :: r)).map (fun p => (PExpr.num p.1, p.2))
          else if isAlphaC c then
            let ident := (c :: r).takeWhile isIdentC
            some (PExpr.pname (String.mk ident), (c :: r).drop ident.length)
          else none
      | [] => none

def pElems : Nat → Char → List Char → Option (List PExpr × List Char)
  | 0, _, _ => none
  | f + 1, close, cs =>
      match pExpr f cs with
      | some (e, r) =>
          match skipWs r with
          | ',' :: r2 =>
              match skipWs r2 with
              | c :: r3 =>
                  if c = close then some ([e], c :: r3)
                  else
                    match pElems f close (c :: r3) with
                    | some (es, r4) => some (e :: es, r4)
                    | none => none
              | [] => none
          | _ => some ([e], r)
      | none => none

end

/-- Parse a complete expression (a model of ast.parse on the bracketed
slice); a parse failure models the SyntaxError branch. -/
def parseTop (cs : List Char) : Option PExpr :=
  match pExpr (8 * (cs.length + 1)) cs with
  | some (e, r) => if (skipWs r).isEmpty then some e else none
  | none => none

/-- The transform function of auto.py lines 135 to 154: none models the
raised rejection of a node outside the restricted grammar. -/
def transformF : Nat → PExpr → Option PExpr
  | 0, _ => none
  | f + 1, e =>
      match e with
      | PExpr.pname s => if s = "pi" then some (PExpr.num piQ) else none
      | PExpr.num q => some (PExpr.num q)
      | PExpr.binop op l r =>
          if op = PBinOp.addOp ∨ op = PBinOp.subOp ∨ op = PBinOp.mulOp ∨ op = PBinOp.divOp then
            match transformF f l, transformF f r with
            | some tl, some tr => some (PExpr.binop op tl tr)
            | _, _ => none
          else none
      | PExpr.unop PUnOp.usub e1 => (transformF f e1).map (PExpr.unop PUnOp.usub)
      | PExpr.unop PUnOp.uadd _ => none
      | PExpr.plist [a, b] =>
          match transformF f a, transformF f b with
          | some ta, some tb => some (PExpr.plist [ta, tb])
          | _, _ => none
      | PExpr.plist [a, b, PExpr.num q] =>
          match transformF f a, transformF f b with
          | some ta, some tb => some (PExpr.plist [ta, tb, PExpr.num q])
          | _, _ => none
      | _ => none

/-- Python binary arithmetic on the values a transformed tree can hold:
numbers combine arithmetically, list concatenation for addition, division
by zero fails, every other combination raises (models TypeError and
ZeroDivisionError, both swallowed by the bare except of line 169). -/
def evalBin (op : PBinOp) (a b : PyVal) : Option PyVal :=
  match op, a, b with
  | PBinOp.addOp, PyVal.num x, PyVal.num y => some (PyVal.num (qadd x y))
  | PBinOp.addOp, PyVal.num _, _ => none
  | PBinOp.addOp, _, PyVal.num _ => none
  | PBinOp.addOp, x, y => some (vappend x y)
  | PBinOp.subOp, PyVal.num x, PyVal.num y => some (PyVal.num (qsub x y))
  | PBinOp.mulOp, PyVal.num x, PyVal.num y => some (PyVal.num (qmul x y))
  | PBinOp.divOp, PyVal.num x, PyVal.num y =>
      if y.num = 0 then none else some (PyVal.num (qdiv x y))
  | _, _, _ => none

mutual

def evalE : Nat → PExpr → Option PyVal
  | 0, _ => none
  | f + 1, e =>
      match e with
      | PExpr.num q => some (PyVal.num q)
      | PExpr.unop PUnOp.usub e1 =>
          match evalE f e1 with
          | some (PyVal.num a) => some (PyVal.num (qneg a))
          | _ => none
      | PExpr.binop op l r =>
          match evalE f l, evalE f r with
          | some va, some vb => evalBin op va vb
          | _, _ => none
      | PExpr.plist es => evalL f es
      | _ => none

def evalL : Nat → List PExpr → Option PyVal
  | 0, _ => none
  | _ + 1, [] => some PyVal.vnil
  | f + 1, e :: es =>
      match evalE f e, evalL f es with
      | some v, some vs => some (PyVal.vcons v vs)
      | _, _ => none

end

/-- The full parse-transform-evaluate-destructure pipeline on the
bracketed slice of a streamer title, yielding low, high and the bit
count; none is any failure on the way (auto.py lines 161 to 170). -/
def d32spec (cs : List Char) : Option (PyVal × PyVal × PyVal) :=
  match parseTop cs with
  | none => none
  | some e0 =>
      match transformF (8 * (cs.length + 1)) e0 with
      | none => none
      | some t =>
          match evalE (8 * (cs.length + 1)) t with
          | none => none
          | some v =>
              match v with
              | PyVal.vcons a (PyVal.vcons b PyVal.vnil) => some (a, b, PyVal.num (mkQ 32 1))
              | PyVal.vcons a (PyVal.vcons b (PyVal.vcons c PyVal.vnil)) => some (a, b, c)
              | _ => none

/- The embedding of interpret itself (auto.py lines 114 to 397). -/

def lookupClass (reg : List (String × PyClass)) (n : String) : Option PyClass :=
  (reg.find? (fun p => p.1 = n)).map Prod.snd

def stripStar (s : String) : String :=
  match s.data.getLast? with
  | some c => if c = '*' then String.mk s.data.dropLast else s
  | none => s

def firstIdx (cs : List Char) (c : Char) : Option Nat := cs.findIdx? (fun x => x = c)

def strSlice (cs : List Char) (l r : Nat) : List Char := (cs.drop l).take (r + 1 - l)

def listProd (l : List Nat) : Nat := l.foldl (fun a b => a * b) 1

/-- The object-pointer check of auto.py lines 127 to 132: it fires when
the streamer is a TStreamerObjectPointer whose star-stripped type name is
a registered class.  Note it sits inside the try block, before primitive
classification. -/
def objPtrPlan (b : Branch) : Option Interp :=
  match b.streamer with
  | some s =>
      if s.cls = StreamerCls.objectPointer then
        match s.fTypeName with
        | some tn =>
            match lookupClass b.classes (stripStar tn) with
            | some c => some (Interp.asobj (ObjRepr.ofClass c) 0)
            | none => none
        | none => none
      else none
  | none => none

/-- The fallback plan of the Double32 path when the streamer title holds
no bracketed expression (auto.py line 159). -/
def d32default (dims : List Nat) : Interp :=
  Interp.asdtype2 (NDtype.scalar dtF4b, dims) (NDtype.scalar dtF8n, dims)

/-- The Double32 branch of auto.py lines 156 to 170: some gives the out
value that then flows to the leaf-count wrap; none is the early return
None of line 170. -/
def d32branch (b : Branch) (dims : List Nat) : Option Interp :=
  match b.streamer with
  | none => some (d32default dims)
  | some s =>
      match firstIdx s.fTitle.data '[', firstIdx s.fTitle.data ']' with
      | some l, some r =>
          match d32spec (strSlice s.fTitle.data l r) with
          | some (low, high, nb) => some (Interp.asdouble32 low high nb dims dims)
          | none => none
      | _, _ => some (d32default dims)

/-- The leaf-count wrap of auto.py lines 180 to 183. -/
def wrapCount (lf : Leaf) (out : Interp) : Interp :=
  match lf.fLeafCount with
  | none => out
  | some _ => Interp.asjagged out 0

/-- The per-leaf record dtypes of the multi-leaf path (auto.py lines 186
to 188); none models NotNumerical raised by any leaf. -/
def recordOfLeaves : List Leaf → Option (List (String × Dtype) × List (String × Dtype))
  | [] => some ([], [])
  | x :: xs =>
      match leaf2dtype x, recordOfLeaves xs with
      | some d, some (fs, ts) =>
          some ((x.fName, d.newbyteorder true) :: fs, (x.fName, d.newbyteorder false) :: ts)
      | _, _ => none

/-- The try block of interpret (auto.py lines 125 to 195): none models
the NotNumerical escape to the except handler, some r is a normal return
with r the returned plan (r none is the Python value None). -/
def tryBody (b : Branch) (swapbytes : Bool) (dims : List Nat) : Option (Option Interp) :=
  match b.fLeaves with
  | [lf] =>
      match objPtrPlan b with
      | some p => some (some p)
      | none =>
          if lf.cls = LeafCls.element ∧ lf.fType = kDouble32 then
            match d32branch b dims with
            | none => some none
            | some out => some (some (wrapCount lf out))
          else
            match leaf2dtype lf with
            | none => none
            | some d0 =>
                let fromd := d0.newbyteorder true
                let tod := if swapbytes then fromd.newbyteorder false else fromd
                some (some (wrapCount lf
                  (Interp.asdtype2 (NDtype.scalar fromd, dims) (NDtype.scalar tod, dims))))
  | leaves =>
      if leaves.length > 1 then
        match recordOfLeaves leaves with
        | none => none
        | some (fromFields, toFields) =>
            let toF := if swapbytes then toFields else fromFields
            if leaves.all (fun x => x.fLeafCount = none) then
              some (some (Interp.asdtype2 (NDtype.record fromFields, dims) (NDtype.record toF, dims)))
            else some none
      else some none

/-- The child-counted check of auto.py line 199. -/
def childCounted (b : Branch) (lf : Leaf) : Bool :=
  !b.fBranches.isEmpty &&
    b.fBranches.all (fun x =>
      match x.fLeaves with
      | [xl] => xl.fLeafCount = some lf.lid
      | _ => false)

def objPlanFromName (b : Branch) (n : String) : Option Interp :=
  match lookupClass b.classes n with
  | some c => some (Interp.asobj (ObjRepr.ofClass c) 0)
  | none => none

/-- The embedded-object check of auto.py lines 202 to 205. -/
def objectStreamerPlan (b : Branch) : Option Interp :=
  match b.streamer with
  | some s =>
      if s.cls = StreamerCls.objectEmb then
        match s.fTypeName with
        | some tn => objPlanFromName b tn
        | none => none
      else none
  | none => none

/-- The streamer-info check of auto.py lines 207 to 210. -/
def infoStreamerPlan (b : Branch) : Option Interp :=
  match b.streamer with
  | some s => if s.cls = StreamerCls.info then objPlanFromName b s.fName else none
  | none => none

/-- The basic-scalar-member check of auto.py lines 216 to 231; none means
fall through (unknown code, or a remainder after division). -/
def basicTypePlan (s : Streamer) (swapbytes : Bool) (dims : List Nat) : Option Interp :=
  if s.cls = StreamerCls.basicType then
    match s.fType with
    | some t =>
        match ftype2dtype t with
        | some fromd =>
            let tod := if swapbytes then fromd.newbyteorder false else fromd
            let fromdims := s.fSize / fromd.itemsize
            if s.fSize % fromd.itemsize = 0 then
              let todims := if listProd dims = fromdims then dims else [fromdims]
              some (Interp.asdtype2 (NDtype.scalar fromd, [fromdims]) (NDtype.scalar tod, todims))
            else none
        | none => none
    | none => none
  else none

/-- The basic-pointer check of auto.py lines 233 to 245. -/
def basicPointerPlan (b : Branch) (s : Streamer) (swapbytes : Bool) (lf : Leaf) : Option Interp :=
  if s.cls = StreamerCls.basicPointer then
    match s.fType with
    | some t =>
        if kOffsetP < t ∧ t < kOffsetP + 20 then
          match ftype2dtype (t - kOffsetP) with
          | some fromd =>
              let tod := if swapbytes then fromd.newbyteorder false else fromd
              if b.fLeaves.length = 1 ∧ lf.fLeafCount ≠ none then
                some (Interp.asjagged
                  (Interp.asdtype2 (NDtype.scalar fromd, []) (NDtype.scalar tod, [])) 1)
              else none
          | none => none
        else none
    | none => none
  else none

/-- The STL-vector check of auto.py lines 256 to 283, including the
vector-of-class resolution.  Except.ok none means fall through to the
text checks; the error cases are the unbound streamerClass at line 274
and the misspelt streamerclass at line 283. -/
def stlVectorPlan (b : Branch) (s : Streamer) (swapbytes : Bool) : Except PyErr (Option Interp) :=
  match s.fCtype with
  | some ct =>
      match ftype2dtype ct with
      | some fromd =>
          let tod := if swapbytes then fromd.newbyteorder false else fromd
          Except.ok (some (Interp.asjagged
            (Interp.asdtype2 (NDtype.scalar fromd, []) (NDtype.scalar tod, [])) 10))
      | none => stlVectorClassPlan b
  | none => stlVectorClassPlan b
where
  stlVectorClassPlan (b : Branch) : Except PyErr (Option Interp) :=
    match b.vecstreamer with
    | none => Except.ok none
    | some vs =>
        let sc :=
          match vs.pyclass with
          | some c => some c
          | none => lookupClass b.classes vs.fName
        match sc with
        | none => Except.error (PyErr.nameError "streamerClass")
        | some c =>
            match c.recarray with
            | none => Except.ok (some (Interp.asobj (ObjRepr.stlvec (STLElt.clsElt c)) 6))
            | some rec0 =>
                match c.methods with
                | none =>
                    Except.ok (some (Interp.asjagged (Interp.asdtype1 (NDtype.record rec0)) 10))
                | some m =>
                    match m.arraymethods with
                    | none =>
                        Except.ok (some (Interp.asjagged
                          (Interp.aswrapped (Interp.asdtype1 (NDtype.record rec0)) (WrapArg.meths m)) 10))
                    | some _ => Except.error (PyErr.nameError "streamerclass")

/-- Prefix match of the bitset pattern (auto.py lines 286 and 340). -/
def bitsetNum (s : String) : Option Nat :=
  if "bitset<".data.isPrefixOf s.data then
    let rest := s.data.drop 7
    let ds := rest.takeWhile isDigitC
    match ds with
    | [] => none
    | d0 :: _ =>
        if d0.toNat = 48 then none
        else
          match rest.drop ds.length with
          | '>' :: _ => some (digitsVal ds)
          | _ => none
  else none

/-- The exact-match table of single vectors of primitives (auto.py lines
290 to 311 and 347 to 368); destinations are defaulted by asdtype, source
dtypes are written without explicit byte order in auto.py. -/
def vecSingle (tn : String) : Option Dtype :=
  if tn = "vector<bool>" then some dtBool
  else if tn = "vector<char>" then some dtI1
  else if tn = "vector<unsigned char>" then some dtU1
  else if tn = "vector<short>" then some dtI2n
  else if tn = "vector<unsigned short>" then some dtU2n
  else if tn = "vector<int>" then some dtI4n
  else if tn = "vector<unsigned int>" then some dtU4n
  else if tn = "vector<long>" then some dtI8n
  else if tn = "vector<unsigned long>" then some dtU8n
  else if tn = "vector<float>" then some dtF4n
  else if tn = "vector<double>" then some dtF8n
  else none

/-- The exact-match table of vectors of vectors of primitives (auto.py
lines 315 to 336 and 372 to 393); multi-byte sources are explicitly
big-endian there. -/
def vecDouble (tn : String) : Option Dtype :=
  if tn = "vector<vector<bool> >" then some dtBool
  else if tn = "vector<vector<char> >" then some dtI1
  else if tn = "vector<vector<unsigned char> >" then some dtU1
  else if tn = "vector<vector<short> >" then some dtI2b
  else if tn = "vector<vector<unsigned short> >" then some dtU2b
  else if tn = "vector<vector<int> >" then some dtI4b
  else if tn = "vector<vector<unsigned int> >" then some dtU4b
  else if tn = "vector<vector<long> >" then some dtI8b
  else if tn = "vector<vector<unsigned long> >" then some dtU8b
  else if tn = "vector<vector<float> >" then some dtF4b
  else if tn = "vector<vector<double> >" then some dtF8b
  else none

/-- The vector checks shared by the type-name source and the class-name
source (auto.py lines 290 to 338 and 347 to 395). -/
def vecPlans (tn : String) : Option Interp :=
  match vecSingle tn with
  | some d => some (Interp.asjagged (Interp.asdtype1 (NDtype.scalar d)) 10)
  | none =>
      if tn = "vector<string>" then some (Interp.asobj (ObjRepr.stlvec STLElt.strElt) 6)
      else
        match vecDouble tn with
        | some d => some (Interp.asobj (ObjRepr.stlvec (STLElt.vecElt (STLElt.dtElt d))) 6)
        | none =>
            if tn = "vector<vector<string> >" then
              some (Interp.asobj (ObjRepr.stlvec (STLElt.vecElt STLElt.strElt)) 6)
            else none

/-- The checks against the streamer type name (auto.py lines 285 to 338). -/
def typeNamePlan (tn : String) : Option Interp :=
  match bitsetNum tn with
  | some n => some (Interp.asstlbitset n)
  | none => vecPlans tn

/-- The checks against the branch class name (auto.py lines 340 to 395). -/
def classNamePlan (cn : String) : Option Interp :=
  match bitsetNum cn with
  | some n => some (Interp.asstlbitset n)
  | none => if cn = "string" then some (Interp.asstring 1) else vecPlans cn

/-- Both text sources in order (auto.py lines 285 to 395): the streamer
type name when the streamer has one, then the branch class name. -/
def interpTextChecks (b : Branch) : Option Interp :=
  match b.streamer.bind Streamer.fTypeName with
  | some tn =>
      match typeNamePlan tn with
      | some p => some p
      | none => classNamePlan b.fClassName
  | none => classNamePlan b.fClassName

/-- The streamer-driven checks of the except handler (auto.py lines 216
to 283): basic scalar member, basic pointer, strings, char star, STL
vector.  Except.ok none means fall through to the text checks. -/
def streamerChecks (b : Branch) (swapbytes : Bool) (dims : List Nat) (lf : Leaf) :
    Except PyErr (Option Interp) :=
  match b.streamer with
  | none => Except.ok none
  | some s =>
      match basicTypePlan s swapbytes dims with
      | some p => Except.ok (some p)
      | none =>
          match basicPointerPlan b s swapbytes lf with
          | some p => Except.ok (some p)
          | none =>
              if s.cls = StreamerCls.tstring then Except.ok (some (Interp.asstring 1))
              else if s.cls = StreamerCls.stlString then Except.ok (some (Interp.asstring 7))
              else if s.fType = some kCharStar then Except.ok (some (Interp.asstring 4))
              else if s.fSTLtype = some kSTLvector then stlVectorPlan b s swapbytes
              else Except.ok none

/-- The except NotNumerical handler of interpret (auto.py lines 197 to
397). -/
def notNumericalHandler (b : Branch) (swapbytes : Bool) (dims : List Nat) :
    Except PyErr (Option Interp) :=
  match b.fLeaves with
  | [lf] =>
      if childCounted b lf then Except.ok (some (Interp.asdtype1 (NDtype.scalar dtI4b)))
      else
        match objectStreamerPlan b with
        | some p => Except.ok (some p)
        | none =>
            match infoStreamerPlan b with
            | some p => Except.ok (some p)
            | none =>
                if lf.cls = LeafCls.tleafC then Except.ok (some (Interp.asstring 1))
                else if lf.cls = LeafCls.element then
                  match streamerChecks b swapbytes dims lf with
                  | Except.error e => Except.error e
                  | Except.ok (some p) => Except.ok (some p)
                  | Except.ok none =>
                      match interpTextChecks b with
                      | some p => Except.ok (some p)
                      | none => Except.ok none
                else Except.ok none
  | _ => Except.ok none

/-- The embedding of interpret (auto.py lines 114 to 397).  Except.error
models a Python exception escaping interpret; Except.ok none models a
return of None. -/
def interpret (b : Branch) (swapbytes : Bool) : Except PyErr (Option Interp) :=
  match b.fLeaves with
  | [lf] =>
      let dims := dimsOfTitle lf.fTitle
      match tryBody b swapbytes dims with
      | some r => Except.ok r
      | none => notNumericalHandler b swapbytes dims
  | leaves =>
      if leaves.any (fun x => titleHasDims x.fTitle.data) then Except.ok none
      else
        match tryBody b swapbytes [] with
        | some r => Except.ok r
        | none => notNumericalHandler b swapbytes []

/- Helper lemmas shared by the claim theorems. -/

lemma objPtrPlan_none_of_cls (b : Branch) (s : Streamer) (hs : b.streamer = some s)
    (hc : s.cls ≠ StreamerCls.objectPointer) : objPtrPlan b = none := by
  simp [objPtrPlan, hs, hc]

lemma objectStreamerPlan_none_of_cls (b : Branch) (s : Streamer) (hs : b.streamer = some s)
    (hc : s.cls ≠ StreamerCls.objectEmb) : objectStreamerPlan b = none := by
  simp [objectStreamerPlan, hs, hc]

lemma infoStreamerPlan_none_of_cls (b : Branch) (s : Streamer) (hs : b.streamer = some s)
    (hc : s.cls ≠ StreamerCls.info) : infoStreamerPlan b = none := by
  simp [infoStreamerPlan, hs, hc]

/-- The primitive single-leaf path of interpret: when the object-pointer
check misses and the leaf classifies as a primitive, the result is the
endianness-corrected scalar plan carrying the title dims, counted-wrapped
exactly when the leaf has a counter leaf. -/
lemma primitive_path (b : Branch) (swapbytes : Bool) (lf : Leaf) (d0 : Dtype)
    (h1 : b.fLeaves = [lf]) (h2 : leaf2dtype lf = some d0)
    (h3 : objPtrPlan b = none) :
    interpret b swapbytes = Except.ok (some (wrapCount lf
      (Interp.asdtype2 (NDtype.scalar (d0.newbyteorder true), dimsOfTitle lf.fTitle)
        (NDtype.scalar (if swapbytes then (d0.newbyteorder true).newbyteorder false
          else d0.newbyteorder true), dimsOfTitle lf.fTitle)))) := by
  have hnd : ¬(lf.cls = LeafCls.element ∧ lf.fType = kDouble32) := by
    rintro ⟨hc, ht⟩
    rw [leaf2dtype, hc] at h2
    rw [ht] at h2
    have h9 : ftype2dtype kDouble32 = none := by decide
    rw [h9] at h2
    exact Option.noConfusion h2
  simp only [interpret, h1]
  simp only [tryBody, h1, h3]
  rw [if_neg hnd, h2]

/-- Transfer from interpret to the except handler: a single leaf that
raises NotNumerical with no object-pointer hit. -/
lemma interpret_to_handler (b : Branch) (swapbytes : Bool) (lf : Leaf)
    (h1 : b.fLeaves = [lf]) (h2 : lf.cls = LeafCls.element)
    (h3 : ftype2dtype lf.fType = none) (h3b : lf.fType ≠ kDouble32)
    (hop : objPtrPlan b = none) :
    interpret b swapbytes = notNumericalHandler b swapbytes (dimsOfTitle lf.fTitle) := by
  have hnd : ¬(lf.cls = LeafCls.element ∧ lf.fType = kDouble32) := fun hh => h3b hh.2
  have hld : leaf2dtype lf = none := by rw [leaf2dtype, h2]; exact h3
  simp only [interpret, h1]
  simp only [tryBody, h1, hop]
  rw [if_neg hnd, hld]

/-- Reduction of the except handler down to the streamer checks, for a
single TLeafElement leaf with no child-count, object or info hit. -/
lemma handler_to_streamer (b : Branch) (swapbytes : Bool) (dims : List Nat) (lf : Leaf)
    (h1 : b.fLeaves = [lf]) (h2 : lf.cls = LeafCls.element)
    (h4 : childCounted b lf = false)
    (hobj : objectStreamerPlan b = none) (hinfo : infoStreamerPlan b = none) :
    notNumericalHandler b swapbytes dims =
      match streamerChecks b swapbytes dims lf with
      | Except.error e => Except.error e
      | Except.ok (some p) => Except.ok (some p)
      | Except.ok none => Except.ok (interpTextChecks b) := by
  have hc1 : lf.cls ≠ LeafCls.tleafC := by rw [h2]; decide
  simp only [notNumericalHandler, h1, h4, hobj, hinfo]
  rw [if_neg hc1, if_pos h2]
  simp only [Bool.false_eq_true, if_false]
  cases streamerChecks b swapbytes dims lf with
  | error e => rfl
  | ok r => cases r with
    | none => cases interpTextChecks b <;> rfl
    | some p => rfl

/-- When the streamer is absent or inert (a plain streamer with no type
code and no STL tag), interpret reduces to the two text-pattern check
sequences. -/
lemma reaches_text (b : Branch) (swapbytes : Bool) (lf : Leaf)
    (h1 : b.fLeaves = [lf]) (h2 : lf.cls = LeafCls.element)
    (h3 : ftype2dtype lf.fType = none) (h3b : lf.fType ≠ kDouble32)
    (h4 : childCounted b lf = false)
    (h5 : b.streamer = none ∨ ∃ s, b.streamer = some s ∧ s.cls = StreamerCls.otherStreamer ∧
      s.fType = none ∧ s.fSTLtype = none) :
    interpret b swapbytes = Except.ok (interpTextChecks b) := by
  have hop : objPtrPlan b = none := by
    rcases h5 with h | ⟨s, hs, hc, _, _⟩
    · simp [objPtrPlan, h]
    · exact objPtrPlan_none_of_cls b s hs (by rw [hc]; decide)
  have hobj : objectStreamerPlan b = none := by
    rcases h5 with h | ⟨s, hs, hc, _, _⟩
    · simp [objectStreamerPlan, h]
    · exact objectStreamerPlan_none_of_cls b s hs (by rw [hc]; decide)
  have hinfo : infoStreamerPlan b = none := by
    rcases h5 with h | ⟨s, hs, hc, _, _⟩
    · simp [infoStreamerPlan, h]
    · exact infoStreamerPlan_none_of_cls b s hs (by rw [hc]; decide)
  have hsc : streamerChecks b swapbytes (dimsOfTitle lf.fTitle) lf = Except.ok none := by
    rcases h5 with h | ⟨s, hs, hc, hft, hstl⟩
    · simp [streamerChecks, h]
    · have hc2 : s.cls ≠ StreamerCls.basicType := by rw [hc]; decide
      have hc3 : s.cls ≠ StreamerCls.basicPointer := by rw [hc]; decide
      have hc4 : s.cls ≠ StreamerCls.tstring := by rw [hc]; decide
      have hc5 : s.cls ≠ StreamerCls.stlString := by rw [hc]; decide
      simp [streamerChecks, hs, basicTypePlan, basicPointerPlan, hc2, hc3, hc4, hc5, hft, hstl]
  rw [interpret_to_handler b swapbytes lf h1 h2 h3 h3b hop,
    handler_to_streamer b swapbytes (dimsOfTitle lf.fTitle) lf h1 h2 h4 hobj hinfo, hsc]

lemma digitsFold_pos (ds : List Char) (a : Nat) (ha : 0 < a) :
    0 < ds.foldl (fun a c => a * 10 + (c.toNat - 48)) a := by
  induction ds generalizing a with
  | nil => exact ha
  | cons c cs ih =>
      exact ih _ (Nat.lt_of_lt_of_le (Nat.mul_pos ha (by norm_num)) (Nat.le_add_right _ _))

lemma digitsVal_pos (d0 : Char) (dtl : List Char) (hd : isDigitC d0 = true)
    (hz : ¬ d0.toNat = 48) : 0 < digitsVal (d0 :: dtl) := by
  unfold digitsVal
  rw [List.foldl_cons]
  apply digitsFold_pos
  simp only [isDigitC, Bool.and_eq_true, decide_eq_true_eq] at hd
  omega

lemma parseBr_pos (cs : List Char) (n : Nat) (rest : List Char)
    (h : parseBr cs = some (n, rest)) : 0 < n := by
  simp only [parseBr] at h
  split at h
  · exact Option.noConfusion h
  · rename_i d0 dtl heq
    split at h
    · exact Option.noConfusion h
    · rename_i hz
      split at h
      · rename_i rest2 heq2
        simp only [Option.some.injEq, Prod.mk.injEq] at h
        have hd : isDigitC d0 = true :=
          List.mem_takeWhile_imp (heq ▸ List.mem_cons_self d0 dtl)
        rw [← h.1, heq]
        exact digitsVal_pos d0 dtl hd hz
      · exact Option.noConfusion h

lemma scanDimsF_pos (f : Nat) : ∀ (cs : List Char) (n : Nat), n ∈ scanDimsF f cs → 0 < n := by
  induction f with
  | zero => intro cs n h; simp [scanDimsF] at h
  | succ f ih =>
      intro cs n h
      cases cs with
      | nil => simp [scanDimsF] at h
      | cons c rest =>
          simp only [scanDimsF] at h
          by_cases hc : c = '['
          · rw [if_pos hc] at h
            cases hbr : parseBr rest with
            | none => rw [hbr] at h; exact ih rest n h
            | some p =>
                rw [hbr] at h
                rcases List.mem_cons.mp h with h1 | h2
                · exact h1 ▸ parseBr_pos rest p.1 p.2 (by rw [hbr])
                · exact ih p.2 n h2
          · rw [if_neg hc] at h
            exact ih rest n h

lemma dimsOfTitle_pos (t : String) (n : Nat) (h : n ∈ dimsOfTitle t) : 0 < n := by
  unfold dimsOfTitle at h
  by_cases hd : titleHasDims t.data
  · rw [if_pos hd] at h
    exact scanDimsF_pos t.data.length t.data n h
  · rw [if_neg hd] at h
    simp at h

/-- C7: applied to a sole leaf title, the dimension parser maps
name[2][3] to (2, 3), maps name[n][3] to (3,) skipping the non-numeric
segment, and maps a bare name to the empty tuple; every extracted
purely-numeric bracketed segment is a positive integer, with no failure
mode (the function is total). -/
theorem c7_dimension_parsing :
    dimsOfTitle "name[2][3]" = [2, 3] ∧
    dimsOfTitle "name[n][3]" = [3] ∧
    dimsOfTitle "name" = [] ∧
    ∀ (t : String) (n : Nat), n ∈ dimsOfTitle t → 0 < n :=
  ⟨by decide, by decide, by decide, fun t n h => dimsOfTitle_pos t n h⟩

/-- C7 witness: the positivity clause applied at a concrete title and
extracted dimension. -/
theorem c7_dimension_parsing_witness : 0 < 2 :=
  c7_dimension_parsing.2.2.2 "name[2][3]" 2 (by decide)

lemma bitsetNum_pos (s : String) (n : Nat) (h : bitsetNum s = some n) : 0 < n := by
  simp only [bitsetNum] at h
  split at h
  · split at h
    · exact Option.noConfusion h
    · rename_i d0 dtl heq
      split at h
      · exact Option.noConfusion h
      · rename_i hz
        split at h
        · simp only [Option.some.injEq] at h
          have hd : isDigitC d0 = true :=
            List.mem_takeWhile_imp (heq ▸ List.mem_cons_self d0 dtl)
          rw [← h, heq]
          exact digitsVal_pos d0 dtl hd hz
        · exact Option.noConfusion h
  · exact Option.noConfusion h

/- Concrete branches used in counterexamples and witnesses. -/

def plainLeaf (c : LeafCls) (ty : Int) (title : String) (lc : Option Nat) : Leaf :=
  ⟨c, false, ty, title, "x", lc, 0⟩

def c1Class : PyClass := ⟨"TThing", none, none⟩

/-- A single-leaf branch whose leaf is a plain 32-bit float leaf but
whose streamer is an object pointer to a registered class. -/
def c1Branch : Branch :=
  ⟨[plainLeaf LeafCls.tleafF 0 "x" none], [],
   some ⟨StreamerCls.objectPointer, "s", "t", some "TThing*", none, 0, none, none⟩,
   none, "", [("TThing", c1Class)]⟩

/-- C1 counterexample: on a single-leaf column whose leaf classifies as a
primitive 32-bit float but whose streamer is an object pointer to a
registered class, interpret returns the object plan, not the primitive
scalar plan, because the object-pointer check of lines 127 to 132 runs
before primitive classification. -/
theorem c1_counterexample :
    interpret c1Branch true = Except.ok (some (Interp.asobj (ObjRepr.ofClass c1Class) 0)) ∧
    interpret c1Branch true ≠ Except.ok (some (Interp.asdtype2
      (NDtype.scalar dtF4b, []) (NDtype.scalar dtF4n, []))) := by
  exact ⟨by decide, by decide⟩

/-- C1 amended: primitive classification yields the primitive scalar
plan for every single-leaf column, provided the streamer is not an object
pointer whose star-stripped declared class name is registered; that one
structural check precedes primitive classification.  The plan carries the
title dims and is counted-wrapped exactly when the leaf has a counter. -/
theorem c1_amended (b : Branch) (swapbytes : Bool) (lf : Leaf) (d0 : Dtype)
    (h1 : b.fLeaves = [lf]) (h2 : leaf2dtype lf = some d0)
    (h3 : objPtrPlan b = none) :
    interpret b swapbytes = Except.ok (some (wrapCount lf
      (Interp.asdtype2 (NDtype.scalar (d0.newbyteorder true), dimsOfTitle lf.fTitle)
        (NDtype.scalar (if swapbytes then (d0.newbyteorder true).newbyteorder false
          else d0.newbyteorder true), dimsOfTitle lf.fTitle)))) :=
  primitive_path b swapbytes lf d0 h1 h2 h3

def c1wBranch : Branch := ⟨[plainLeaf LeafCls.tleafF 0 "x" none], [], none, none, "", []⟩

/-- C1 amended witness: a plain float leaf with no streamer resolves to
the primitive scalar plan. -/
theorem c1_amended_witness :
    interpret c1wBranch true = Except.ok (some (Interp.asdtype2
      (NDtype.scalar dtF4b, []) (NDtype.scalar dtF4n, []))) :=
  Eq.trans (c1_amended c1wBranch true (plainLeaf LeafCls.tleafF 0 "x" none) dtF4n rfl
    (by decide) (by decide)) (by decide)

/-- A single-leaf float branch with a counter leaf and a title carrying a
numeric fixed dimension. -/
def c2Branch : Branch :=
  ⟨[plainLeaf LeafCls.tleafF 0 "arr[n][3]" (some 5)], [], none, none, "", []⟩

/-- C2 counterexample: a single float leaf with a counter leaf and title
arr[n][3] resolves to a counted (jagged) plan whose inner plan carries
the non-empty title-derived dims (3,); counted wrapping and non-empty
dims are not mutually exclusive. -/
theorem c2_counterexample :
    interpret c2Branch true = Except.ok (some (Interp.asjagged
      (Interp.asdtype2 (NDtype.scalar dtF4b, [3]) (NDtype.scalar dtF4n, [3])) 0)) ∧
    ([3] : List Nat) ≠ [] := by
  exact ⟨by decide, by decide⟩

/-- C2 amended: in the primitive path, counted wrapping is governed
solely by the presence of a counter leaf, and the counted plan carries
the title-derived dims unchanged, which may be non-empty. -/
theorem c2_amended (b : Branch) (swapbytes : Bool) (lf : Leaf) (d0 : Dtype) (k : Nat)
    (h1 : b.fLeaves = [lf]) (h2 : leaf2dtype lf = some d0)
    (h3 : objPtrPlan b = none) (h4 : lf.fLeafCount = some k) :
    interpret b swapbytes = Except.ok (some (Interp.asjagged
      (Interp.asdtype2 (NDtype.scalar (d0.newbyteorder true), dimsOfTitle lf.fTitle)
        (NDtype.scalar (if swapbytes then (d0.newbyteorder true).newbyteorder false
          else d0.newbyteorder true), dimsOfTitle lf.fTitle)) 0)) := by
  rw [primitive_path b swapbytes lf d0 h1 h2 h3]
  simp [wrapCount, h4]

/-- C2 amended witness: the counterexample branch instantiates the
amended statement. -/
theorem c2_amended_witness :
    interpret c2Branch true = Except.ok (some (Interp.asjagged
      (Interp.asdtype2 (NDtype.scalar dtF4b, [3]) (NDtype.scalar dtF4n, [3])) 0)) :=
  Eq.trans (c2_amended c2Branch true (plainLeaf LeafCls.tleafF 0 "arr[n][3]" (some 5)) dtF4n 5
    rfl (by decide) (by decide) rfl) (by decide)

def c3Class (ms : Option Methods) : PyClass := ⟨"Elem", some [("fX", dtF4n)], ms⟩

/-- A single-leaf branch declared as an STL vector of a schema-defined
class with a fixed record layout, parametrized by the method sets the
class declares. -/
def c3Branch (ms : Option Methods) : Branch :=
  ⟨[plainLeaf LeafCls.element 0 "x" none], [],
   some ⟨StreamerCls.stl, "s", "t", some "vector<Elem>", some 500, 0, some kSTLvector, some 61⟩,
   some ⟨some (c3Class ms), "Elem"⟩, "", []⟩

/-- C3: for an STL vector of a schema-defined element class with a fixed
record layout, interpret returns the counted record plan with header
skip 10 when no method sets are declared, wraps the inner plan when only
per-element methods are declared, but raises a NameError (the misspelt
streamerclass of line 283) instead of returning the array-level wrapped
plan when array-level methods are declared. -/
theorem c3_vector_of_class_eval :
    interpret (c3Branch none) true = Except.ok (some (Interp.asjagged
      (Interp.asdtype1 (NDtype.record [("fX", dtF4n)])) 10)) ∧
    interpret (c3Branch (some ⟨"M", none⟩)) true = Except.ok (some (Interp.asjagged
      (Interp.aswrapped (Interp.asdtype1 (NDtype.record [("fX", dtF4n)]))
        (WrapArg.meths ⟨"M", none⟩)) 10)) ∧
    interpret (c3Branch (some ⟨"M", some "AM"⟩)) true =
      Except.error (PyErr.nameError "streamerclass") := by
  exact ⟨by decide, by decide, by decide⟩

/-- A compressed-float (Double32) branch whose streamer title is the
given text. -/
def c5Branch (stitle : String) : Branch :=
  ⟨[plainLeaf LeafCls.element kDouble32 "x" none], [],
   some ⟨StreamerCls.basicType, "s", stitle, some "Double32_t", some kDouble32, 4, none, none⟩,
   none, "", []⟩

/-- C5: a compressed-float column with descriptor text [0, 1.6, 16]
resolves to the scaled-float plan with low 0, high 8/5 (the literal 1.6)
and bit width 16; with [-pi, pi] the bounds are minus and plus the pi
constant and the bit width defaults to 32; with no bracketed expression
the plan is the default mapping from disk big-endian 32-bit float to
native 64-bit float. -/
theorem c5_compressed_float_examples :
    interpret (c5Branch "[0, 1.6, 16]") true = Except.ok (some (Interp.asdouble32
      (PyVal.num (mkQ 0 1)) (PyVal.num (mkQ 8 5)) (PyVal.num (mkQ 16 1)) [] [])) ∧
    interpret (c5Branch "[-pi, pi]") true = Except.ok (some (Interp.asdouble32
      (PyVal.num (qneg piQ)) (PyVal.num piQ) (PyVal.num (mkQ 32 1)) [] [])) ∧
    interpret (c5Branch "no brackets here") true = Except.ok (some (Interp.asdtype2
      (NDtype.scalar dtF4b, []) (NDtype.scalar dtF8n, []))) := by
  exact ⟨by decide, by decide, by decide⟩

/-- A basic-scalar streamer declaring a 4-byte integer code with byte
size 13, not a multiple of 4, and a crafted bitset type name. -/
def c10Branch : Branch :=
  ⟨[plainLeaf LeafCls.element 0 "x" none], [],
   some ⟨StreamerCls.basicType, "s", "t", some "bitset<24>", some kInt, 13, none, none⟩,
   none, "", []⟩

/-- C10 counterexample: a basic-scalar member with known numeric code
whose declared size 13 is not a multiple of the 4-byte element size does
not produce definitive non-resolution; the resolver falls through to the
textual checks, and a bitset type name still yields a plan. -/
theorem c10_counterexample :
    interpret c10Branch true = Except.ok (some (Interp.asstlbitset 24)) ∧
    interpret c10Branch true ≠ Except.ok none := by
  exact ⟨by decide, by decide⟩

/-- C4: for a single-leaf compressed-float (Double32) column whose
streamer title contains a bracketed expression on which the restricted
parse-transform-evaluate pipeline fails (for instance one using a
function call), interpret returns None: no exception escapes and there
is no fallback to the plain float mapping. -/
theorem c4_malformed_returns_none (b : Branch) (swapbytes : Bool) (lf : Leaf) (s : Streamer)
    (l r : Nat)
    (h1 : b.fLeaves = [lf]) (h2 : lf.cls = LeafCls.element) (h3 : lf.fType = kDouble32)
    (h4 : b.streamer = some s) (h5 : objPtrPlan b = none)
    (h6 : firstIdx s.fTitle.data '[' = some l)
    (h7 : firstIdx s.fTitle.data ']' = some r)
    (h8 : d32spec (strSlice s.fTitle.data l r) = none) :
    interpret b swapbytes = Except.ok none := by
  simp only [interpret, h1]
  simp only [tryBody, h1, h5]
  rw [if_pos ⟨h2, h3⟩]
  simp only [d32branch, h4, h6, h7, h8]

/-- C4 witness: a Double32 title holding a function call resolves to
None without an escaping exception. -/
theorem c4_malformed_returns_none_witness :
    interpret (c5Branch "[sin(1), 2]") true = Except.ok none :=
  c4_malformed_returns_none (c5Branch "[sin(1), 2]") true
    (plainLeaf LeafCls.element kDouble32 "x" none)
    ⟨StreamerCls.basicType, "s", "[sin(1), 2]", some "Double32_t", some kDouble32, 4, none, none⟩
    0 10 rfl rfl rfl rfl (by decide) (by decide) (by decide) (by decide)

/-- C6: for a single-leaf non-primitive column whose streamer is a
basic-scalar member with a known numeric code and declared byte size an
exact multiple of the element size, the plan reads quotient-many source
elements and its destination dims equal the title-derived dims when
their product equals the quotient and are otherwise overridden to the
single dimension (quotient,). -/
theorem c6_basic_scalar (b : Branch) (swapbytes : Bool) (lf : Leaf) (s : Streamer)
    (t : Int) (d : Dtype)
    (h1 : b.fLeaves = [lf]) (h2 : lf.cls = LeafCls.element)
    (h3 : ftype2dtype lf.fType = none) (h3b : lf.fType ≠ kDouble32)
    (h4 : childCounted b lf = false)
    (h5 : b.streamer = some s) (h6 : s.cls = StreamerCls.basicType)
    (h7 : s.fType = some t) (h8 : ftype2dtype t = some d)
    (h9 : s.fSize % d.itemsize = 0) :
    interpret b swapbytes = Except.ok (some (Interp.asdtype2
      (NDtype.scalar d, [s.fSize / d.itemsize])
      (NDtype.scalar (if swapbytes then d.newbyteorder false else d),
        if listProd (dimsOfTitle lf.fTitle) = s.fSize / d.itemsize then dimsOfTitle lf.fTitle
        else [s.fSize / d.itemsize]))) := by
  have hop := objPtrPlan_none_of_cls b s h5 (by rw [h6]; decide)
  have hobj := objectStreamerPlan_none_of_cls b s h5 (by rw [h6]; decide)
  have hinfo := infoStreamerPlan_none_of_cls b s h5 (by rw [h6]; decide)
  have hbtp : basicTypePlan s swapbytes (dimsOfTitle lf.fTitle) = some (Interp.asdtype2
      (NDtype.scalar d, [s.fSize / d.itemsize])
      (NDtype.scalar (if swapbytes then d.newbyteorder false else d),
        if listProd (dimsOfTitle lf.fTitle) = s.fSize / d.itemsize then dimsOfTitle lf.fTitle
        else [s.fSize / d.itemsize])) := by
    simp only [basicTypePlan, h6, h7, h8, h9]
    simp
  rw [interpret_to_handler b swapbytes lf h1 h2 h3 h3b hop,
    handler_to_streamer b swapbytes (dimsOfTitle lf.fTitle) lf h1 h2 h4 hobj hinfo]
  simp only [streamerChecks, h5, hbtp]

/-- A basic-scalar streamer of declared size 12 with the 4-byte integer
code, under a leaf title with dims (2, 2). -/
def c6Branch : Branch :=
  ⟨[plainLeaf LeafCls.element 0 "x[2][2]" none], [],
   some ⟨StreamerCls.basicType, "s", "t", some "Int_t", some kInt, 12, none, none⟩,
   none, "", []⟩

/-- C6 witness: declared size 12 with 4-byte integer code and title dims
(2, 2) resolves to destination dims (3,). -/
theorem c6_basic_scalar_witness :
    interpret c6Branch true = Except.ok (some (Interp.asdtype2
      (NDtype.scalar dtI4b, [3]) (NDtype.scalar dtI4n, [3]))) :=
  Eq.trans (c6_basic_scalar c6Branch true (plainLeaf LeafCls.element 0 "x[2][2]" none)
    ⟨StreamerCls.basicType, "s", "t", some "Int_t", some kInt, 12, none, none⟩ kInt dtI4b
    rfl rfl (by decide) (by decide) (by decide) rfl rfl rfl (by decide) (by decide)) (by decide)

/-- C8: a single-leaf non-primitive column declared vector of vector of
int, by the streamer type name or by the branch class name, resolves to
the vector-of-vector plan over big-endian 32-bit integers with header
skip 6. -/
theorem c8_vector_of_vector_int (b : Branch) (swapbytes : Bool) (lf : Leaf)
    (h1 : b.fLeaves = [lf]) (h2 : lf.cls = LeafCls.element)
    (h3 : ftype2dtype lf.fType = none) (h3b : lf.fType ≠ kDouble32)
    (h4 : childCounted b lf = false)
    (h5 : (∃ s, b.streamer = some s ∧ s.cls = StreamerCls.otherStreamer ∧ s.fType = none ∧
      s.fSTLtype = none ∧ s.fTypeName = some "vector<vector<int> >") ∨
      (b.streamer = none ∧ b.fClassName = "vector<vector<int> >")) :
    interpret b swapbytes = Except.ok (some (Interp.asobj
      (ObjRepr.stlvec (STLElt.vecElt (STLElt.dtElt dtI4b))) 6)) := by
  rcases h5 with ⟨s, hs, hc, hft, hstl, htn⟩ | ⟨hs, hcn⟩
  · rw [reaches_text b swapbytes lf h1 h2 h3 h3b h4 (Or.inr ⟨s, hs, hc, hft, hstl⟩)]
    have hplan : typeNamePlan "vector<vector<int> >" = some (Interp.asobj
      (ObjRepr.stlvec (STLElt.vecElt (STLElt.dtElt dtI4b))) 6) := by decide
    simp [interpTextChecks, hs, htn, hplan]
  · rw [reaches_text b swapbytes lf h1 h2 h3 h3b h4 (Or.inl hs)]
    have hplan : classNamePlan "vector<vector<int> >" = some (Interp.asobj
      (ObjRepr.stlvec (STLElt.vecElt (STLElt.dtElt dtI4b))) 6) := by decide
    simp [interpTextChecks, hs, hcn, hplan]

def c8Branch : Branch :=
  ⟨[plainLeaf LeafCls.element 0 "x" none], [],
   some ⟨StreamerCls.otherStreamer, "s", "t", some "vector<vector<int> >", none, 0, none, none⟩,
   none, "", []⟩

/-- C8 witness: a streamer type name vector of vector of int yields the
nested vector plan with header skip 6. -/
theorem c8_vector_of_vector_int_witness :
    interpret c8Branch true = Except.ok (some (Interp.asobj
      (ObjRepr.stlvec (STLElt.vecElt (STLElt.dtElt dtI4b))) 6)) :=
  c8_vector_of_vector_int c8Branch true (plainLeaf LeafCls.element 0 "x" none)
    rfl rfl (by decide) (by decide) (by decide)
    (Or.inl ⟨⟨StreamerCls.otherStreamer, "s", "t", some "vector<vector<int> >", none, 0, none,
      none⟩, rfl, rfl, rfl, rfl, rfl⟩)

/-- C9: a single-leaf non-primitive column whose streamer type name or
class name matches the bitset pattern with count N resolves to the
bitset plan over N bits, from either text source, and N is positive. -/
theorem c9_bitset (b : Branch) (swapbytes : Bool) (lf : Leaf) (n : Nat)
    (h1 : b.fLeaves = [lf]) (h2 : lf.cls = LeafCls.element)
    (h3 : ftype2dtype lf.fType = none) (h3b : lf.fType ≠ kDouble32)
    (h4 : childCounted b lf = false)
    (h5 : (∃ s tn, b.streamer = some s ∧ s.cls = StreamerCls.otherStreamer ∧ s.fType = none ∧
      s.fSTLtype = none ∧ s.fTypeName = some tn ∧ bitsetNum tn = some n) ∨
      (b.streamer = none ∧ bitsetNum b.fClassName = some n)) :
    interpret b swapbytes = Except.ok (some (Interp.asstlbitset n)) ∧ 0 < n := by
  constructor
  · rcases h5 with ⟨s, tn, hs, hc, hft, hstl, htn, hbs⟩ | ⟨hs, hbs⟩
    · rw [reaches_text b swapbytes lf h1 h2 h3 h3b h4 (Or.inr ⟨s, hs, hc, hft, hstl⟩)]
      simp [interpTextChecks, hs, htn, typeNamePlan, hbs]
    · rw [reaches_text b swapbytes lf h1 h2 h3 h3b h4 (Or.inl hs)]
      simp [interpTextChecks, hs, classNamePlan, hbs]
  · rcases h5 with ⟨_, tn, _, _, _, _, _, hbs⟩ | ⟨_, hbs⟩
    · exact bitsetNum_pos tn n hbs
    · exact bitsetNum_pos b.fClassName n hbs

def c9Branch : Branch :=
  ⟨[plainLeaf LeafCls.element 0 "x" none], [], none, none, "bitset<24>", []⟩

/-- C9 witness: a branch class name bitset of 24 resolves to the bitset
plan over 24 bits. -/
theorem c9_bitset_witness :
    interpret c9Branch true = Except.ok (some (Interp.asstlbitset 24)) ∧ 0 < 24 :=
  c9_bitset c9Branch true (plainLeaf LeafCls.element 0 "x" none) 24
    rfl rfl (by decide) (by decide) (by decide) (Or.inr ⟨rfl, by decide⟩)

/-- C10 amended: when the declared byte size of a basic-scalar member is
not an exact multiple of the element size, the basic-scalar check is
skipped and resolution falls through to the remaining textual checks;
interpret returns None provided none of the bitset, vector or string
type-name and class-name patterns match. -/
theorem c10_amended (b : Branch) (swapbytes : Bool) (lf : Leaf) (s : Streamer)
    (t : Int) (d : Dtype) (tn : String)
    (h1 : b.fLeaves = [lf]) (h2 : lf.cls = LeafCls.element)
    (h3 : ftype2dtype lf.fType = none) (h3b : lf.fType ≠ kDouble32)
    (h4 : childCounted b lf = false)
    (h5 : b.streamer = some s) (h6 : s.cls = StreamerCls.basicType)
    (h7 : s.fType = some t) (h8 : ftype2dtype t = some d)
    (h9 : s.fSize % d.itemsize ≠ 0)
    (h10 : s.fSTLtype = none) (h11 : s.fTypeName = some tn)
    (h12 : bitsetNum tn = none) (h13 : vecSingle tn = none)
    (h14 : tn ≠ "vector<string>") (h15 : vecDouble tn = none)
    (h16 : tn ≠ "vector<vector<string> >")
    (h17 : bitsetNum b.fClassName = none) (h18 : b.fClassName ≠ "string")
    (h19 : vecSingle b.fClassName = none) (h20 : b.fClassName ≠ "vector<string>")
    (h21 : vecDouble b.fClassName = none) (h22 : b.fClassName ≠ "vector<vector<string> >") :
    interpret b swapbytes = Except.ok none := by
  have hop := objPtrPlan_none_of_cls b s h5 (by rw [h6]; decide)
  have hobj := objectStreamerPlan_none_of_cls b s h5 (by rw [h6]; decide)
  have hinfo := infoStreamerPlan_none_of_cls b s h5 (by rw [h6]; decide)
  have hbtp : basicTypePlan s swapbytes (dimsOfTitle lf.fTitle) = none := by
    simp only [basicTypePlan, h6, h7, h8]
    simp [h9]
  have hcb : s.cls ≠ StreamerCls.basicPointer := by rw [h6]; decide
  have hbpp : basicPointerPlan b s swapbytes lf = none := by
    simp [basicPointerPlan, hcb]
  have hc4 : ¬(s.cls = StreamerCls.tstring) := by rw [h6]; decide
  have hc5 : ¬(s.cls = StreamerCls.stlString) := by rw [h6]; decide
  have ht7 : t ≠ kCharStar := by
    intro hh
    rw [hh] at h8
    have hn : ftype2dtype kCharStar = none := by decide
    rw [hn] at h8
    exact Option.noConfusion h8
  have hckc : ¬(s.fType = some kCharStar) := by
    rw [h7]
    simpa using ht7
  have hstlne : ¬(s.fSTLtype = some kSTLvector) := by
    rw [h10]
    simp
  have hsc : streamerChecks b swapbytes (dimsOfTitle lf.fTitle) lf = Except.ok none := by
    simp only [streamerChecks, h5, hbtp, hbpp]
    rw [if_neg hc4, if_neg hc5, if_neg hckc, if_neg hstlne]
  have hvp : vecPlans tn = none := by simp [vecPlans, h13, h14, h15, h16]
  have htp : typeNamePlan tn = none := by simp [typeNamePlan, h12, hvp]
  have hvp2 : vecPlans b.fClassName = none := by simp [vecPlans, h19, h20, h21, h22]
  have hcp : classNamePlan b.fClassName = none := by simp [classNamePlan, h17, h18, hvp2]
  have htext : interpTextChecks b = none := by
    simp [interpTextChecks, h5, h11, htp, hcp]
  rw [interpret_to_handler b swapbytes lf h1 h2 h3 h3b hop,
    handler_to_streamer b swapbytes (dimsOfTitle lf.fTitle) lf h1 h2 h4 hobj hinfo, hsc, htext]

/-- A basic-scalar streamer of declared size 13 with the 4-byte integer
code and an ordinary scalar type name. -/
def c10wBranch : Branch :=
  ⟨[plainLeaf LeafCls.element 0 "x" none], [],
   some ⟨StreamerCls.basicType, "s", "t", some "Int_t", some kInt, 13, none, none⟩,
   none, "", []⟩

/-- C10 amended witness: declared size 13 with a 4-byte code and no
matching textual pattern resolves to None. -/
theorem c10_amended_witness : interpret c10wBranch true = Except.ok none :=
  c10_amended c10wBranch true (plainLeaf LeafCls.element 0 "x" none)
    ⟨StreamerCls.basicType, "s", "t", some "Int_t", some kInt, 13, none, none⟩ kInt dtI4b "Int_t"
    rfl rfl (by decide) (by decide) (by decide) rfl rfl rfl (by decide) (by decide) rfl rfl
    (by decide) (by decide) (by decide) (by decide) (by decide) (by decide) (by decide)
    (by decide) (by decide) (by decide) (by decide)

end UprootInterp
